import Mathlib

/-!
Shallow embedding of the `reverse-bin` Caddy module (package `reversebin`).

The Go source is embedded as pure Lean functions over explicit state:

* `processState` mirrors the per-key supervisor slot struct.
* `startProcess` mirrors `(c *ReverseBin).startProcess`; nondeterministic
  interactions with the outside world (detector run outcome, pipe/spawn
  errors, the readiness race) are supplied through a `LaunchEnv` record,
  and every externally visible action is recorded in a list of `Effect`s.
* `incrementRequests`, `decrementRequests` (with its `time.AfterFunc`
  callback `idleTimerFire`), `exitWatcherStep` and `cleanup` mirror the
  corresponding functions of the module.
* Go string primitives (`strings.HasPrefix`, `strings.TrimSpace`,
  `strings.TrimPrefix`, `strings.Split`) are re-implemented structurally
  over `String.data` so that all definitions reduce in the kernel.
-/

namespace ReverseWeb

/-- Characters treated as whitespace by Go's `strings.TrimSpace`
(ASCII subset of `unicode.IsSpace`). -/
def isSpaceGo (c : Char) : Bool :=
  c = ' ' || c = '\t' || c = '\n' || c = '\r' || c = '\x0b' || c = '\x0c'

/-- Go `strings.TrimSpace`. -/
def goTrim (s : String) : String :=
  String.mk (((s.data.dropWhile isSpaceGo).reverse.dropWhile isSpaceGo).reverse)

/-- Go `strings.HasPrefix pre s` (argument order: the tested string last). -/
def goHasPre (pre s : String) : Bool :=
  List.isPrefixOf pre.data s.data

/-- Go `strings.TrimPrefix s pre`: drop `pre` from the front when present. -/
def goTrimPre (pre s : String) : String :=
  if goHasPre pre s then String.mk (s.data.drop pre.data.length) else s

/-- Go `strings.Split key " "`: split on every single space, keeping empties.
The accumulator holds the current field's characters in reverse. -/
def splitSp (acc : List Char) : List Char → List String
  | [] => [String.mk acc.reverse]
  | c :: rest =>
    if c = ' ' then String.mk acc.reverse :: splitSp [] rest
    else splitSp (c :: acc) rest

/-- Join strings with a single space between consecutive elements; this is
what the `strings.Builder` loop of `getProcessKey` produces. -/
def joinSpace : List String → String
  | [] => ""
  | [x] => x
  | x :: y :: rest => x ++ " " ++ joinSpace (y :: rest)

/-- Source helper `isUnixUpstream` from the module file. -/
def isUnixUpstream (addr : String) : Bool :=
  goHasPre "unix/" addr

/-- Source helper `readinessConfigured` from the module file. -/
def readinessConfigured (method path : String) : Bool :=
  goTrim method ≠ "" && goTrim path ≠ ""

/-- Handler configuration, mirroring the `ReverseBin` struct fields that the
supervisor core reads (internal mutexes/handles are not data). -/
structure ReverseBin where
  Executable : List String
  WorkingDirectory : String
  Envs : List String
  PassEnvs : List String
  PassAll : Bool
  ReverseProxyTo : String
  ReadinessMethod : String
  ReadinessPath : String
  DynamicProxyDetector : List String
  IdleTimeoutMS : Int
deriving DecidableEq, Repr

/-- Detector output object, mirroring `proxyOverrides` (pointer fields become
`Option`). -/
structure proxyOverrides where
  executable : Option (List String)
  working_directory : Option String
  envs : Option (List String)
  reverse_proxy_to : Option String
  readiness_method : Option String
  readiness_path : Option String
deriving DecidableEq, Repr

/-- The all-`nil` overrides value `new(proxyOverrides)`. -/
def proxyOverrides.empty : proxyOverrides :=
  ⟨none, none, none, none, none, none⟩

/-- Per-key supervisor slot, mirroring `processState`. A live process handle
is modelled by its pid; the stored `context.CancelFunc` is identified by the
pid of the launch it belongs to; an armed `time.Timer` by a timer id. -/
structure processState where
  process : Option Nat
  cancel : Option Nat
  activeRequests : Int
  idleTimer : Option Nat
  terminationMsg : String
  overrides : Option proxyOverrides
deriving DecidableEq, Repr

/-- The zero value `&processState{}`. -/
def processState.empty : processState :=
  ⟨none, none, 0, none, "", none⟩

/-- Error kinds surfaced by the module; each constructor corresponds to one
`fmt.Errorf` site of the source (see `renderErr` for the message shapes). -/
inductive Err where
  | detectorTimeout
  | detectorFailed (exitStatus : String) (stdout : String)
  | detectorBadOutput (stdout : String)
  | invalidConfigReadiness
  | socketRemoveFailed (msg : String)
  | pipeFailed (msg : String)
  | launchFailed (msg : String)
  | exitedDuringReadiness (msg : String)
  | readinessTimeout
  | socketNotReady (msg : String)
  | socketNotSocket (path : String)
  | invalidUpstream
  | execRequired
  | upstreamRequired
deriving DecidableEq, Repr

/-- Rendered error messages of the `fmt.Errorf` calls in the source. -/
def renderErr : Err → String
  | .detectorTimeout => "dynamic proxy detector timed out"
  | .detectorFailed e out => "dynamic proxy detector failed: " ++ e ++ "\nOutput: " ++ out
  | .detectorBadOutput out => "failed to unmarshal detector output\nOutput: " ++ out
  | .invalidConfigReadiness => "readiness_check is required for non-unix reverse_proxy_to targets"
  | .socketRemoveFailed msg => "failed to remove pre-existing unix socket: " ++ msg
  | .pipeFailed msg => msg
  | .launchFailed msg => msg
  | .exitedDuringReadiness msg => "reverse proxy process exited during readiness check: " ++ msg
  | .readinessTimeout => "timeout waiting for reverse proxy process readiness"
  | .socketNotReady msg => "unix socket not ready: " ++ msg
  | .socketNotSocket p => "unix socket path is not a socket: " ++ p
  | .invalidUpstream => "invalid reverse_proxy_to address"
  | .execRequired => "exec (executable) is required when dynamic_proxy_detector is not set"
  | .upstreamRequired => "reverse_proxy_to is required when dynamic_proxy_detector is not set"

/-- Externally visible actions of the supervisor, recorded in order. -/
inductive Effect where
  | logDetectorStderr (s : String)
  | execDetector (argv : List String)
  | removeSocket (path : String)
  | releaseCtx
  | spawn (pid : Nat) (path : String) (args : List String) (dir : String) (envv : List String)
  | probeHTTP (method : String) (url : String)
  | probeSocket (path : String)
  | cancelCtx (pid : Nat)
  | killGroup (pid : Nat)
  | stopTimer (t : Nat)
  | armTimer (t : Nat)
deriving DecidableEq, Repr

/-- True for the child-spawn effect, of any payload. -/
def Effect.isSpawn : Effect → Bool
  | .spawn _ _ _ _ _ => true
  | _ => false

/-- No child spawned in this effect list. -/
def spawnFree (l : List Effect) : Bool :=
  l.all (fun e => !e.isSpawn)

/-- JSON values, as produced by parsing the detector's standard output. -/
inductive Json where
  | null
  | bool (b : Bool)
  | num (n : Int)
  | str (s : String)
  | arr (xs : List Json)
  | obj (fields : List (String × Json))

/-- Decode a JSON value into a `[]string` target, per `encoding/json`:
an array whose elements are strings (a `null` element leaves the zero value
`""`); anything else is a type error. -/
def decodeStrList : Json → Option (List String)
  | .arr xs =>
    xs.foldr
      (fun j acc =>
        match j, acc with
        | .str s, some l => some (s :: l)
        | .null, some l => some ("" :: l)
        | _, _ => none)
      (some [])
  | _ => none

/-- Decode a JSON value into a `*string` field, per `encoding/json`:
`null` sets the pointer to nil, a string sets it, anything else errors. -/
def decodeOptStr : Json → Option (Option String)
  | .null => some none
  | .str s => some (some s)
  | _ => none

/-- Decode a JSON value into a `*[]string` field, per `encoding/json`. -/
def decodeOptStrList : Json → Option (Option (List String))
  | .null => some none
  | .arr xs => (decodeStrList (.arr xs)).map some
  | _ => none

/-- Assign one JSON object member to the matching `proxyOverrides` field.
Unknown keys are ignored (Go default); a type mismatch on a known key is a
decode error. -/
def setOverrideField (o : proxyOverrides) (k : String) (v : Json) : Option proxyOverrides :=
  if k = "executable" then
    (decodeOptStrList v).map (fun l => { o with executable := l })
  else if k = "working_directory" then
    (decodeOptStr v).map (fun s => { o with working_directory := s })
  else if k = "envs" then
    (decodeOptStrList v).map (fun l => { o with envs := l })
  else if k = "reverse_proxy_to" then
    (decodeOptStr v).map (fun s => { o with reverse_proxy_to := s })
  else if k = "readiness_method" then
    (decodeOptStr v).map (fun s => { o with readiness_method := s })
  else if k = "readiness_path" then
    (decodeOptStr v).map (fun s => { o with readiness_path := s })
  else
    some o

/-- Models `json.Unmarshal(outBuf.Bytes(), overrides)` for the
`proxyOverrides` struct, per Go's documented semantics: the JSON literal
`null` has no effect on the target and produces no error; an object is
decoded member-wise (later duplicates win); any other top-level value is a
type error. -/
def unmarshalOverrides (j : Json) (o : proxyOverrides) : Option proxyOverrides :=
  match j with
  | .null => some o
  | .obj fields =>
    fields.foldl (fun acc kv => acc.bind (fun o' => setOverrideField o' kv.1 kv.2)) (some o)
  | _ => none

/-- Outcome of one run of the dynamic proxy detector command:
`timedOut` is whether `detCtx.Err() == context.DeadlineExceeded` held after
`Run` returned, `runErr` is the error returned by `Run` (the textual exit
status, `none` on exit 0), `stdout`/`stderr` are the captured streams, and
`stdoutJson` is the result of parsing `stdout` as JSON (`none` when it is
not valid JSON, e.g. empty output). -/
structure DetectorRun where
  timedOut : Bool
  runErr : Option String
  stdout : String
  stdoutJson : Option Json
  stderr : String

/-- Detector phase of `startProcess` (the `len(c.DynamicProxyDetector) > 0`
block): log stderr when non-empty, then check the deadline, then the run
error, then unmarshal stdout into the fresh overrides value. -/
def runDetector (argv : List String) (d : DetectorRun) :
    List Effect × Except Err proxyOverrides :=
  let logs :=
    [Effect.execDetector argv] ++
      (if d.stderr ≠ "" then [Effect.logDetectorStderr d.stderr] else [])
  if d.timedOut then
    (logs, .error .detectorTimeout)
  else
    match d.runErr with
    | some e => (logs, .error (.detectorFailed e d.stdout))
    | none =>
      match d.stdoutJson with
      | none => (logs, .error (.detectorBadOutput d.stdout))
      | some j =>
        match unmarshalOverrides j proxyOverrides.empty with
        | none => (logs, .error (.detectorBadOutput d.stdout))
        | some o => (logs, .ok o)

/-- Merge step of `startProcess`: every still-nil pointer field except
`Executable` is pointed at the configured default. -/
def mergeDefaults (c : ReverseBin) (o : proxyOverrides) : proxyOverrides :=
  { o with
    working_directory := some (o.working_directory.getD c.WorkingDirectory)
    envs := some (o.envs.getD c.Envs)
    reverse_proxy_to := some (o.reverse_proxy_to.getD c.ReverseProxyTo)
    readiness_method := some (o.readiness_method.getD c.ReadinessMethod)
    readiness_path := some (o.readiness_path.getD c.ReadinessPath) }

/-- Effective executable path and argument vector: the override wins only
when present and non-empty, else the configured `Executable` when non-empty,
else empty. -/
def effectiveExec (c : ReverseBin) (o : proxyOverrides) : String × List String :=
  match o.executable with
  | some (p :: args) => (p, args)
  | _ =>
    match c.Executable with
    | p :: args => (p, args)
    | [] => ("", [])

/-- Child environment assembly: the full supervisor environment when
`PassAll`, else the named `PassEnvs` imports that are set, with the
effective `envs` appended last. The supervisor's environment is supplied as
an association list standing for `os.Environ` / `os.LookupEnv`. -/
def buildCmdEnv (c : ReverseBin) (osEnv : List (String × String)) (effEnvs : List String) :
    List String :=
  (if c.PassAll then osEnv.map (fun kv => kv.1 ++ "=" ++ kv.2)
   else
     c.PassEnvs.foldl
       (fun acc k =>
         match osEnv.lookup k with
         | some v => acc ++ [k ++ "=" ++ v]
         | none => acc)
       []) ++ effEnvs

/-- Result of `os.Remove` on a pre-existing unix socket path. -/
inductive RemoveResult where
  | removed
  | notExist
  | failed (msg : String)
deriving DecidableEq, Repr

/-- Which arm of the final `select` in `startProcess` fires first:
the readiness prober succeeds, the exit watcher reports the child gone, or
the 10 s deadline expires. -/
inductive ReadinessOutcome where
  | ready
  | exited (msg : String)
  | timeout
deriving DecidableEq, Repr

/-- Outside-world inputs consumed by one `startProcess` call. -/
structure LaunchEnv where
  detector : DetectorRun
  socketRemove : RemoveResult
  stdoutPipeErr : Option String
  stderrPipeErr : Option String
  startErr : Option String
  pid : Nat
  readiness : ReadinessOutcome
  osEnv : List (String × String)

/-- Return value of the `startProcess` model: the slot state at return, the
recorded effects in order, and the Go return value. -/
structure StartResult where
  ps : processState
  effects : List Effect
  result : Except Err proxyOverrides

/-- Final `select` of `startProcess`: readiness, exit watcher and the 10 s
timer race; on the timeout arm `ps.cancel` is invoked when set. -/
def selectPhase (ps1 : processState) (m : proxyOverrides) (env : LaunchEnv)
    (effs : List Effect) : StartResult :=
  match env.readiness with
  | .ready => ⟨ps1, effs, .ok m⟩
  | .exited msg => ⟨ps1, effs, .error (.exitedDuringReadiness msg)⟩
  | .timeout =>
    match ps1.cancel with
    | some q => ⟨ps1, effs ++ [.cancelCtx q], .error .readinessTimeout⟩
    | none => ⟨ps1, effs, .error .readinessTimeout⟩

/-- Readiness-probe selection of `startProcess`: HTTP polling when the
effective readiness method is non-empty (with the unix-socket transport for
`unix/` upstreams), socket-existence polling for `unix/` upstreams without a
method, and the (dead, see `startProcessWith_lateReadinessErr_unreachable`)
error return otherwise. -/
def readinessPhase (ps1 : processState) (m : proxyOverrides) (env : LaunchEnv)
    (effs : List Effect) : StartResult :=
  let effTo := m.reverse_proxy_to.getD ""
  let effMethod := m.readiness_method.getD ""
  let effPath := m.readiness_path.getD ""
  let expected :=
    goTrimPre "https://" (goTrimPre "http://"
      (if goHasPre ":" effTo then "127.0.0.1" ++ effTo else effTo))
  if effMethod ≠ "" then
    let scheme := if goHasPre "https://" effTo then "https" else "http"
    let checkURL :=
      if goHasPre "unix/" effTo then scheme ++ "://localhost" ++ effPath
      else scheme ++ "://" ++ expected ++ effPath
    selectPhase ps1 m env (effs ++ [.probeHTTP effMethod checkURL])
  else if isUnixUpstream effTo then
    selectPhase ps1 m env (effs ++ [.probeSocket (goTrimPre "unix/" effTo)])
  else
    ⟨ps1, effs, .error .invalidConfigReadiness⟩

/-- Spawn phase of `startProcess`: pipe creation and `cmd.Start` may fail
(each failure calls the fresh context's cancel and returns with the slot
untouched); on success `ps.process` and `ps.cancel` are recorded before the
readiness wait. -/
def startSpawnPhase (c : ReverseBin) (ps : processState) (m : proxyOverrides)
    (env : LaunchEnv) (preEffs : List Effect) : StartResult :=
  let ex := effectiveExec c m
  let wd := m.working_directory.getD ""
  let dir := if wd = "" then "." else wd
  let envv := buildCmdEnv c env.osEnv (m.envs.getD [])
  match env.stdoutPipeErr with
  | some e => ⟨ps, preEffs ++ [.releaseCtx], .error (.pipeFailed e)⟩
  | none =>
    match env.stderrPipeErr with
    | some e => ⟨ps, preEffs ++ [.releaseCtx], .error (.pipeFailed e)⟩
    | none =>
      match env.startErr with
      | some e => ⟨ps, preEffs ++ [.releaseCtx], .error (.launchFailed e)⟩
      | none =>
        let ps1 := { ps with process := some env.pid, cancel := some env.pid }
        readinessPhase ps1 m env (preEffs ++ [.spawn env.pid ex.1 ex.2 dir envv])

/-- Post-detector part of `startProcess`: merge the overrides onto the
configured defaults, reject a non-unix upstream without a configured
readiness probe, pre-remove a stale unix socket, then spawn and wait. -/
def startProcessWith (c : ReverseBin) (ps : processState) (ovr : proxyOverrides)
    (env : LaunchEnv) : StartResult :=
  let m := mergeDefaults c ovr
  let effTo := m.reverse_proxy_to.getD ""
  let effMethod := m.readiness_method.getD ""
  let effPath := m.readiness_path.getD ""
  if isUnixUpstream effTo = false ∧ readinessConfigured effMethod effPath = false then
    ⟨ps, [], .error .invalidConfigReadiness⟩
  else if isUnixUpstream effTo then
    let sockEffs := [Effect.removeSocket (goTrimPre "unix/" effTo)]
    match env.socketRemove with
    | .failed msg => ⟨ps, sockEffs, .error (.socketRemoveFailed msg)⟩
    | _ => startSpawnPhase c ps m env sockEffs
  else
    startSpawnPhase c ps m env []

/-- The `(c *ReverseBin).startProcess` launcher: run the detector when
configured (its argv is the key split on single spaces), then launch. -/
def startProcess (c : ReverseBin) (ps : processState) (key : String)
    (env : LaunchEnv) : StartResult :=
  if c.DynamicProxyDetector.length > 0 then
    let argv := splitSp [] key.data
    let dr := runDetector argv env.detector
    match dr.2 with
    | .error e => ⟨ps, dr.1, .error e⟩
    | .ok ovr =>
      let R := startProcessWith c ps ovr env
      ⟨R.ps, dr.1 ++ R.effects, R.result⟩
  else
    startProcessWith c ps proxyOverrides.empty env

/-- Body of the exit-watcher goroutine after `cmd.Wait` returns (taking the
slot lock): read and clear the termination reason (defaulting to
"unexpected exit") and clear `process` only if it still refers to the child
being waited on. Returns the new slot state and the logged reason. -/
def exitWatcherStep (cmdPid : Nat) (ps : processState) : processState × String :=
  let reason := if ps.terminationMsg = "" then "unexpected exit" else ps.terminationMsg
  let ps1 := { ps with terminationMsg := "" }
  if ps1.process = some cmdPid then ({ ps1 with process := none }, reason)
  else (ps1, reason)

/-- The `incrementRequests` method: bump the in-flight counter and stop and
clear any armed idle timer. -/
def incrementRequests (ps : processState) : processState × List Effect :=
  let ps1 := { ps with activeRequests := ps.activeRequests + 1 }
  match ps1.idleTimer with
  | some t => ({ ps1 with idleTimer := none }, [Effect.stopTimer t])
  | none => (ps1, [])

/-- The `decrementRequests` method: drop the in-flight counter and, exactly
when it reaches zero, arm a fresh idle timer (`time.AfterFunc`); the fresh
timer's identity is supplied by the caller. -/
def decrementRequests (ps : processState) (newTimer : Nat) : processState × List Effect :=
  let ps1 := { ps with activeRequests := ps.activeRequests - 1 }
  if ps1.activeRequests = 0 then
    ({ ps1 with idleTimer := some newTimer }, [Effect.armTimer newTimer])
  else
    (ps1, [])

/-- Body of the idle-timer callback registered by `decrementRequests`
(running with the slot lock): if the slot is still idle and a child is still
recorded, set the termination reason, invoke the stored cancel function when
present, and clear the `process` field. -/
def idleTimerFire (ps : processState) : processState × List Effect :=
  if ps.activeRequests = 0 ∧ ps.process.isSome then
    let effs :=
      match ps.cancel with
      | some q => [Effect.cancelCtx q]
      | none => []
    ({ ps with terminationMsg := "idle timeout", process := none }, effs)
  else
    (ps, [])

/-- Per-slot body of `Cleanup`: stop and clear the idle timer, then kill the
process group of any recorded child and clear `process`. -/
def cleanupSlot (ps : processState) : processState × List Effect :=
  let timerEffs :=
    match ps.idleTimer with
    | some t => [Effect.stopTimer t]
    | none => []
  let ps1 := { ps with idleTimer := none }
  match ps1.process with
  | some p => ({ ps1 with process := none }, timerEffs ++ [Effect.killGroup p])
  | none => (ps1, timerEffs)

/-- The `Cleanup` method over the whole registry (slot order is the map
iteration order). -/
def cleanup (slots : List (String × processState)) :
    List (String × processState) × List Effect :=
  (slots.map (fun kv => (kv.1, (cleanupSlot kv.2).1)),
   (slots.map (fun kv => (cleanupSlot kv.2).2)).flatten)

/-- Loop body of `getProcessKey`: a space before every argument except the
first, then the replacer-expanded argument. -/
def detectorKeyLoop (repl : String → String) : Nat → List String → String
  | _, [] => ""
  | i, a :: rest => (if i > 0 then " " else "") ++ repl a ++ detectorKeyLoop repl (i + 1) rest

/-- The `getProcessKey` method: empty key without a detector, else the
expanded detector arguments joined by single spaces; `repl` stands for the
request-scoped `caddy.Replacer`. -/
def getProcessKey (c : ReverseBin) (repl : String → String) : String :=
  if c.DynamicProxyDetector.length = 0 then ""
  else detectorKeyLoop repl 0 c.DynamicProxyDetector

/-- Result of `os.Stat` on a unix socket path just before dispatch. -/
inductive StatResult where
  | sockOk
  | statErr (msg : String)
  | notSock
deriving DecidableEq, Repr

/-- TCP normalization steps of `GetUpstreams`: prepend loopback to a bare
`:port`, then prepend `http://` when no scheme is present. -/
def normalizeTcpAddr (toAddr : String) : String :=
  let a1 := if goHasPre ":" toAddr then "127.0.0.1" ++ toAddr else toAddr
  if goHasPre "http://" a1 = false ∧ goHasPre "https://" a1 = false then "http://" ++ a1
  else a1

/-- Dial-form computation of `GetUpstreams` (after the slot work): a `unix/`
upstream is passed through unchanged guarded by a socket stat; a TCP
upstream is normalized, URL-parsed (`parseHost` stands for
`url.Parse` + `.Host`) and its host:port component returned. -/
def computeDialAddr (parseHost : String → Option String) (stat : StatResult)
    (toAddr : String) : Except Err String :=
  if isUnixUpstream toAddr then
    match stat with
    | .statErr msg => .error (.socketNotReady msg)
    | .notSock => .error (.socketNotSocket (goTrimPre "unix/" toAddr))
    | .sockOk => .ok toAddr
  else
    match parseHost (normalizeTcpAddr toAddr) with
    | none => .error .invalidUpstream
    | some h => .ok h

/-- Go `strings.ToUpper` restricted to ASCII. -/
def toUpperGo (s : String) : String :=
  String.mk (s.data.map fun c => if 'a' ≤ c ∧ c ≤ 'z' then Char.ofNat (c.toNat - 32) else c)

/-- Validation and normalization in `Provision`: static mode requires an
executable and an upstream; the readiness method is upper-cased; a
non-positive idle timeout defaults to 5000 ms; a non-unix, non-empty
upstream requires a configured readiness probe. -/
def provisionValidate (c : ReverseBin) : Except Err ReverseBin :=
  if c.DynamicProxyDetector.length = 0 ∧ c.Executable.length = 0 then
    .error .execRequired
  else if c.DynamicProxyDetector.length = 0 ∧ c.ReverseProxyTo = "" then
    .error .upstreamRequired
  else
    let method :=
      if c.ReadinessMethod ≠ "" then toUpperGo c.ReadinessMethod else c.ReadinessMethod
    let idle := if c.IdleTimeoutMS ≤ 0 then (5000 : Int) else c.IdleTimeoutMS
    let c2 := { c with ReadinessMethod := method, IdleTimeoutMS := idle }
    if isUnixUpstream c2.ReverseProxyTo = false ∧ c2.ReverseProxyTo ≠ "" ∧
        readinessConfigured c2.ReadinessMethod c2.ReadinessPath = false then
      .error .invalidConfigReadiness
    else
      .ok c2



theorem splitSp_ne_nil (acc : List Char) (l : List Char) : splitSp acc l ≠ [] := by
  induction l generalizing acc with
  | nil => simp [splitSp]
  | cons c rest ih =>
    by_cases h : c = ' ' <;> simp [splitSp, h, ih]

theorem joinSpace_splitSp (l acc : List Char) :
    joinSpace (splitSp acc l) = String.mk acc.reverse ++ String.mk l := by
  induction l generalizing acc with
  | nil => simp [splitSp, joinSpace]
  | cons c rest ih =>
    by_cases h : c = ' '
    · subst h
      obtain ⟨y, ys, hy⟩ := List.exists_cons_of_ne_nil (splitSp_ne_nil [] rest)
      have : joinSpace (splitSp acc (' ' :: rest)) =
          String.mk acc.reverse ++ " " ++ joinSpace (splitSp [] rest) := by
        simp [splitSp, hy, joinSpace]
      rw [this, ih []]
      apply String.ext
      simp
    · have : splitSp acc (c :: rest) = splitSp (c :: acc) rest := by
        simp [splitSp, h]
      rw [this, ih (c :: acc)]
      apply String.ext
      simp

theorem detectorKeyLoop_succ (repl : String → String) (l : List String) (i : Nat) :
    detectorKeyLoop repl (i + 1) l =
      match l with
      | [] => ""
      | x :: xs => " " ++ joinSpace ((x :: xs).map repl) := by
  induction l generalizing i with
  | nil => rfl
  | cons a rest ih =>
    have hpos : i + 1 > 0 := Nat.succ_pos i
    show (if i + 1 > 0 then " " else "") ++ repl a ++ detectorKeyLoop repl (i + 1 + 1) rest = _
    rw [if_pos hpos, ih (i + 1)]
    cases rest with
    | nil => simp [joinSpace]
    | cons b bs => simp [joinSpace, String.append_assoc]

/-- C5: with no detector configured the process key is the empty string;
with a detector configured the key is the expanded argument templates joined
by single spaces; and rejoining the argv that `startProcess` would execute
(the key split on single spaces) is byte-equal to the key. -/
theorem claim_C5_key_derivation (c : ReverseBin) (repl : String → String) :
    (c.DynamicProxyDetector = [] → getProcessKey c repl = "") ∧
    (∀ a rest, c.DynamicProxyDetector = a :: rest →
      getProcessKey c repl = joinSpace ((a :: rest).map repl)) ∧
    (∀ key : String, joinSpace (splitSp [] key.data) = key) := by
  refine ⟨fun h => by simp [getProcessKey, h], fun a rest h => ?_, fun key => ?_⟩
  · have : getProcessKey c repl = detectorKeyLoop repl 0 (a :: rest) := by
      simp [getProcessKey, h]
    rw [this]
    show (if (0:Nat) > 0 then " " else "") ++ repl a ++ detectorKeyLoop repl 1 rest = _
    rw [if_neg (by omega), detectorKeyLoop_succ]
    cases rest with
    | nil => simp [joinSpace]
    | cons b bs => simp [joinSpace, String.append_assoc]
  · have := joinSpace_splitSp key.data []
    simpa using this

/-- Witness for C5 at concrete inputs: a static configuration yields the
empty key; a two-template detector with a non-trivial replacer yields the
space-joined expansion. -/
theorem claim_C5_key_derivation_witness :
    getProcessKey ⟨["srv"], "", [], [], false, "", "", "", [], 0⟩ (fun s => s) = "" ∧
    getProcessKey ⟨[], "", [], [], false, "", "", "", ["det", "{path}"], 0⟩
      (fun s => s ++ "X") = "detX {path}X" := by
  constructor
  · exact (claim_C5_key_derivation _ _).1 rfl
  · exact ((claim_C5_key_derivation _ (fun s => s ++ "X")).2.1 "det" ["{path}"] rfl).trans (by decide)



theorem cleanupSlot_clean (ps : processState) :
    (cleanupSlot ps).1.idleTimer = none ∧ (cleanupSlot ps).1.process = none := by
  unfold cleanupSlot
  cases ps.process <;> simp

theorem cleanupSlot_of_clean (ps : processState)
    (h1 : ps.idleTimer = none) (h2 : ps.process = none) :
    cleanupSlot ps = (ps, []) := by
  obtain ⟨p, cn, ar, it, tm, ov⟩ := ps
  simp only at h1 h2
  subst h1
  subst h2
  rfl

/-- C8: `Cleanup` is idempotent: after one call every slot has its idle
timer stopped and cleared and its child cleared, and a second call returns
the registry unchanged with no effects (no state change, no kill). -/
theorem claim_C8_cleanup_idempotent (slots : List (String × processState)) :
    (∀ kv ∈ (cleanup slots).1, kv.2.idleTimer = none ∧ kv.2.process = none) ∧
    cleanup (cleanup slots).1 = ((cleanup slots).1, []) := by
  constructor
  · intro kv hkv
    simp only [cleanup, List.mem_map] at hkv
    obtain ⟨⟨k, ps⟩, _, rfl⟩ := hkv
    exact cleanupSlot_clean ps
  · unfold cleanup
    simp only [List.map_map, Prod.mk.injEq]
    refine ⟨?_, ?_⟩
    · apply List.map_congr_left
      intro kv _
      simp [cleanupSlot_of_clean _ (cleanupSlot_clean kv.2).1 (cleanupSlot_clean kv.2).2]
    · simp only [List.flatten_eq_nil_iff]
      intro l hl
      simp only [List.mem_map, Function.comp] at hl
      obtain ⟨⟨k, ps⟩, _, rfl⟩ := hl
      simp [cleanupSlot_of_clean _ (cleanupSlot_clean ps).1 (cleanupSlot_clean ps).2]

/-- Witness for C8: on a registry with one armed-timer, live-child slot, the
first call clears the timer and child (killing the group), and the second
call is a no-op with no effects. -/
theorem claim_C8_cleanup_idempotent_witness :
    cleanup (cleanup [("k", ⟨some 7, some 5, 2, some 3, "", none⟩)]).1 =
      ((cleanup [("k", ⟨some 7, some 5, 2, some 3, "", none⟩)]).1, []) ∧
    cleanup [("k", ⟨some 7, some 5, 2, some 3, "", none⟩)] =
      ([("k", ⟨none, some 5, 2, none, "", none⟩)], [Effect.stopTimer 3, Effect.killGroup 7]) :=
  ⟨(claim_C8_cleanup_idempotent _).2, by decide⟩

theorem startProcess_static (c : ReverseBin) (ps : processState) (key : String)
    (env : LaunchEnv) (h : c.DynamicProxyDetector = []) :
    startProcess c ps key env = startProcessWith c ps proxyOverrides.empty env := by
  simp [startProcess, h]

/-- C9: a readiness probe counts as configured only when both method and
path are non-empty after trimming; hence a static launch at a TCP upstream
with an empty-after-trim readiness path fails with the readiness-required
error before any spawn, whatever the readiness method is. -/
theorem claim_C9_path_required (c : ReverseBin) (ps : processState) (key : String)
    (env : LaunchEnv) :
    (∀ method path, goTrim path = "" → readinessConfigured method path = false) ∧
    (c.DynamicProxyDetector = [] →
      isUnixUpstream c.ReverseProxyTo = false →
      goTrim c.ReadinessPath = "" →
      (startProcess c ps key env).result = .error .invalidConfigReadiness ∧
      spawnFree (startProcess c ps key env).effects = true ∧
      (startProcess c ps key env).ps = ps) := by
  constructor
  · intro method path h
    simp [readinessConfigured, h]
  · intro hdet hunix hpath
    rw [startProcess_static c ps key env hdet]
    have hrc : readinessConfigured c.ReadinessMethod c.ReadinessPath = false := by
      simp [readinessConfigured, hpath]
    have : startProcessWith c ps proxyOverrides.empty env =
        ⟨ps, [], .error .invalidConfigReadiness⟩ := by
      unfold startProcessWith
      simp [mergeDefaults, proxyOverrides.empty, hunix, hrc]
    simp [this, spawnFree]

/-- Witness for C9: a TCP upstream with readiness method "GET" but
all-whitespace readiness path is rejected with the readiness-required
error, with no spawn and the slot untouched. -/
theorem claim_C9_path_required_witness :
    (startProcess ⟨["srv"], "", [], [], false, "127.0.0.1:9000", "GET", " ", [], 0⟩
        processState.empty "" ⟨⟨false, none, "", none, ""⟩, .removed, none, none, none, 42, .ready, []⟩).result =
      .error .invalidConfigReadiness ∧
    (startProcess ⟨["srv"], "", [], [], false, "127.0.0.1:9000", "GET", " ", [], 0⟩
        processState.empty "" ⟨⟨false, none, "", none, ""⟩, .removed, none, none, none, 42, .ready, []⟩).ps =
      processState.empty :=
  ⟨((claim_C9_path_required _ _ _ _).2 rfl (by decide) (by decide)).1,
   ((claim_C9_path_required _ _ _ _).2 rfl (by decide) (by decide)).2.2⟩

/-- C10: a detector that exits zero printing the JSON literal `null`
decodes successfully, leaving every override unset exactly as for `{}`
(all configured defaults apply); only output that fails to unmarshal into
the overrides structure — invalid JSON such as empty output, a top-level
array, or a wrongly typed field — produces the decode error. -/
theorem claim_C10_null_decodes (o : proxyOverrides) (argv : List String)
    (st errS : String) (xs : List Json) :
    unmarshalOverrides Json.null o = some o ∧
    unmarshalOverrides (Json.obj []) o = some o ∧
    unmarshalOverrides (Json.arr xs) o = none ∧
    (runDetector argv ⟨false, none, st, some Json.null, errS⟩).2 = .ok proxyOverrides.empty ∧
    (runDetector argv ⟨false, none, st, some (Json.obj []), errS⟩).2 = .ok proxyOverrides.empty ∧
    (runDetector argv ⟨false, none, st, none, errS⟩).2 = .error (.detectorBadOutput st) ∧
    (runDetector argv ⟨false, none, st, some (Json.arr xs), errS⟩).2 = .error (.detectorBadOutput st) ∧
    unmarshalOverrides (Json.obj [("executable", Json.str "x")]) o = none := by
  refine ⟨rfl, rfl, rfl, rfl, rfl, rfl, rfl, ?_⟩
  simp [unmarshalOverrides, setOverrideField, decodeOptStrList]



theorem runDetector_snd_stderr_indep (argv : List String) (t : Bool) (r : Option String)
    (so : String) (sj : Option Json) (s1 s2 : String) :
    (runDetector argv ⟨t, r, so, sj, s1⟩).2 = (runDetector argv ⟨t, r, so, sj, s2⟩).2 := by
  rcases sj with _ | j
  · cases t <;> cases r <;> simp [runDetector]
  · cases t <;> cases r <;>
      cases hu : unmarshalOverrides j proxyOverrides.empty <;> simp [runDetector, hu]

/-- C4: with a detector configured, deadline expiry yields the
detector-timeout error with precedence over the run error; a non-zero exit
within the deadline yields the detector-failed error carrying the exit
status and the captured stdout (message rendered from those two alone),
while the captured stderr never influences the returned value and is logged
separately when non-empty. -/
theorem claim_C4_detector_failure_modes (c : ReverseBin) (ps : processState)
    (key : String) (env : LaunchEnv) (argv : List String) (t : Bool)
    (r : Option String) (so : String) (sj : Option Json) (s1 s2 : String)
    (hpos : c.DynamicProxyDetector.length > 0) :
    (env.detector.timedOut = true →
      (startProcess c ps key env).result = .error .detectorTimeout) ∧
    (env.detector.timedOut = false → ∀ e, env.detector.runErr = some e →
      (startProcess c ps key env).result =
        .error (.detectorFailed e env.detector.stdout) ∧
      renderErr (.detectorFailed e env.detector.stdout) =
        "dynamic proxy detector failed: " ++ e ++ "\nOutput: " ++ env.detector.stdout) ∧
    (runDetector argv ⟨t, r, so, sj, s1⟩).2 = (runDetector argv ⟨t, r, so, sj, s2⟩).2 ∧
    (env.detector.stderr ≠ "" →
      Effect.logDetectorStderr env.detector.stderr ∈ (startProcess c ps key env).effects) := by
  refine ⟨?_, ?_, runDetector_snd_stderr_indep argv t r so sj s1 s2, ?_⟩
  · intro hto
    simp [startProcess, hpos, runDetector, hto]
  · intro hto e hr
    refine ⟨?_, rfl⟩
    simp [startProcess, hpos, runDetector, hto, hr]
  · intro hs
    obtain ⟨d, sr, p1, p2, st, pid, rd, oe⟩ := env
    obtain ⟨t0, r0, so0, sj0, se0⟩ := d
    simp only at hs
    cases t0 <;> cases r0 <;> rcases sj0 with _ | j <;>
      simp_all [startProcess, hpos, runDetector]
    · cases hu : unmarshalOverrides j proxyOverrides.empty <;> simp [hu]

/-- Witness for C4: a detector that exits 2 within the deadline produces the
detector-failed error carrying the exit status and stdout; on deadline
expiry the timeout error wins even with a run error present. -/
theorem claim_C4_detector_failure_modes_witness :
    (startProcess ⟨[], "", [], [], false, "", "", "", ["det"], 0⟩ processState.empty "det"
        ⟨⟨false, some "exit status 2", "boom-out", none, "boom-err"⟩, .removed, none, none, none, 9, .ready, []⟩).result =
      .error (.detectorFailed "exit status 2" "boom-out") ∧
    (startProcess ⟨[], "", [], [], false, "", "", "", ["det"], 0⟩ processState.empty "det"
        ⟨⟨true, some "signal: killed", "", none, ""⟩, .removed, none, none, none, 9, .ready, []⟩).result =
      .error .detectorTimeout :=
  ⟨(((claim_C4_detector_failure_modes _ processState.empty "det" _ [] false none "" none "" ""
        (by decide)).2.1 rfl "exit status 2" rfl)).1,
   ((claim_C4_detector_failure_modes _ processState.empty "det" _ [] false none "" none "" ""
        (by decide)).1 rfl)⟩

theorem goHasPre_http_loopback (s : String) :
    goHasPre "http://" ("127.0.0.1" ++ s) = false := rfl

theorem goHasPre_https_loopback (s : String) :
    goHasPre "https://" ("127.0.0.1" ++ s) = false := rfl

/-- C6: a `unix/` upstream is returned to the proxy engine as the original
string unchanged; a TCP upstream gets loopback prefixed to a bare `:port`
and `http://` prepended when no scheme is present, is then URL-parsed with
its host component returned, and a parse failure yields the
invalid-upstream error. -/
theorem claim_C6_dial_form (parseHost : String → Option String) (stat : StatResult)
    (toAddr : String) :
    (isUnixUpstream toAddr = true →
      ∀ d, computeDialAddr parseHost stat toAddr = .ok d → d = toAddr) ∧
    (isUnixUpstream toAddr = false →
      (goHasPre ":" toAddr = true →
        normalizeTcpAddr toAddr = "http://" ++ ("127.0.0.1" ++ toAddr)) ∧
      (goHasPre ":" toAddr = false → goHasPre "http://" toAddr = false →
        goHasPre "https://" toAddr = false →
        normalizeTcpAddr toAddr = "http://" ++ toAddr) ∧
      computeDialAddr parseHost stat toAddr =
        (match parseHost (normalizeTcpAddr toAddr) with
         | none => .error .invalidUpstream
         | some h => .ok h)) := by
  constructor
  · intro hu d hd
    simp only [computeDialAddr, hu, if_pos] at hd
    cases stat <;> simp_all
  · intro hu
    refine ⟨?_, ?_, ?_⟩
    · intro hc
      simp [normalizeTcpAddr, hc, goHasPre_http_loopback, goHasPre_https_loopback]
    · intro hc h1 h2
      simp [normalizeTcpAddr, hc, h1, h2]
    · simp [computeDialAddr, hu]

/-- Witness for C6: a bare `:8080` upstream normalizes to
`http://127.0.0.1:8080` and dials its host component; a `unix/` upstream is
passed through unchanged; an unparsable address errors. -/
theorem claim_C6_dial_form_witness :
    computeDialAddr (fun s => if s = "http://127.0.0.1:8080" then some "127.0.0.1:8080" else none)
        .sockOk ":8080" = .ok "127.0.0.1:8080" ∧
    computeDialAddr (fun _ => none) .sockOk "bad addr" = .error .invalidUpstream ∧
    "unix//tmp/a.sock" = "unix//tmp/a.sock" := by
  refine ⟨?_, ?_, (claim_C6_dial_form (fun _ => some "h") .sockOk "unix//tmp/a.sock").1
      (by decide) "unix//tmp/a.sock" (by rfl)⟩
  · exact ((claim_C6_dial_form _ .sockOk ":8080").2 (by decide)).2.2.trans (by rfl)
  · exact ((claim_C6_dial_form _ .sockOk "bad addr").2 (by decide)).2.2.trans (by rfl)



/-- Counterexample for C7: the detector output `{"executable": []}` has the
`executable` field present (a non-null empty array), yet the launched
executable still comes from the configured default and varies with it, so a
present field does not always override the configured default. -/
theorem claim_C7_counterexample :
    unmarshalOverrides (Json.obj [("executable", Json.arr [])]) proxyOverrides.empty =
      some ⟨some [], none, none, none, none, none⟩ ∧
    effectiveExec ⟨["srv"], "", [], [], false, "", "", "", [], 0⟩
      ⟨some [], none, none, none, none, none⟩ = ("srv", []) ∧
    effectiveExec ⟨["other"], "", [], [], false, "", "", "", [], 0⟩
      ⟨some [], none, none, none, none, none⟩ = ("other", []) :=
  ⟨rfl, rfl, rfl⟩

/-- C7 (amended): each of the five non-executable override fields, when
present, replaces the configured default, and when absent leaves the default
in effect; the `executable` field overrides only when present *and*
non-empty, a present empty list falling back to the configured executable;
the empty object yields exactly the configured defaults. -/
theorem claim_C7_overrides_merge (c : ReverseBin) (o : proxyOverrides) :
    ((∀ w, o.working_directory = some w → (mergeDefaults c o).working_directory = some w) ∧
     (o.working_directory = none →
       (mergeDefaults c o).working_directory = some c.WorkingDirectory)) ∧
    ((∀ v, o.envs = some v → (mergeDefaults c o).envs = some v) ∧
     (o.envs = none → (mergeDefaults c o).envs = some c.Envs)) ∧
    ((∀ v, o.reverse_proxy_to = some v → (mergeDefaults c o).reverse_proxy_to = some v) ∧
     (o.reverse_proxy_to = none →
       (mergeDefaults c o).reverse_proxy_to = some c.ReverseProxyTo)) ∧
    ((∀ v, o.readiness_method = some v → (mergeDefaults c o).readiness_method = some v) ∧
     (o.readiness_method = none →
       (mergeDefaults c o).readiness_method = some c.ReadinessMethod)) ∧
    ((∀ v, o.readiness_path = some v → (mergeDefaults c o).readiness_path = some v) ∧
     (o.readiness_path = none →
       (mergeDefaults c o).readiness_path = some c.ReadinessPath)) ∧
    ((∀ p args, o.executable = some (p :: args) → effectiveExec c o = (p, args)) ∧
     (o.executable = none ∨ o.executable = some [] →
       effectiveExec c o =
         (match c.Executable with | q :: qs => (q, qs) | [] => ("", [])))) ∧
    mergeDefaults c proxyOverrides.empty =
      ⟨none, some c.WorkingDirectory, some c.Envs, some c.ReverseProxyTo,
       some c.ReadinessMethod, some c.ReadinessPath⟩ := by
  refine ⟨⟨fun w h => ?_, fun h => ?_⟩, ⟨fun v h => ?_, fun h => ?_⟩,
      ⟨fun v h => ?_, fun h => ?_⟩, ⟨fun v h => ?_, fun h => ?_⟩,
      ⟨fun v h => ?_, fun h => ?_⟩, ⟨fun p args h => ?_, fun h => ?_⟩, rfl⟩ <;>
    first
      | (rcases h with h | h <;> simp [effectiveExec, h])
      | simp [mergeDefaults, h]
      | simp [effectiveExec, h]

/-- Witness for C7 (amended) at concrete inputs: a present working
directory overrides, an absent one defaults, a present non-empty executable
overrides, and `{}` yields exactly the defaults. -/
theorem claim_C7_overrides_merge_witness :
    (mergeDefaults ⟨["srv"], "wd", ["E=1"], [], false, ":9000", "GET", "/hp", [], 0⟩
        ⟨none, some "/tmp", none, none, none, none⟩).working_directory = some "/tmp" ∧
    (mergeDefaults ⟨["srv"], "wd", ["E=1"], [], false, ":9000", "GET", "/hp", [], 0⟩
        proxyOverrides.empty).working_directory = some "wd" ∧
    effectiveExec ⟨["srv"], "wd", ["E=1"], [], false, ":9000", "GET", "/hp", [], 0⟩
        ⟨some ["run", "-x"], none, none, none, none, none⟩ = ("run", ["-x"]) ∧
    mergeDefaults ⟨["srv"], "wd", ["E=1"], [], false, ":9000", "GET", "/hp", [], 0⟩
        proxyOverrides.empty =
      ⟨none, some "wd", some ["E=1"], some ":9000", some "GET", some "/hp"⟩ :=
  ⟨(claim_C7_overrides_merge ⟨["srv"], "wd", ["E=1"], [], false, ":9000", "GET", "/hp", [], 0⟩
      ⟨none, some "/tmp", none, none, none, none⟩).1.1 "/tmp" rfl,
   (claim_C7_overrides_merge ⟨["srv"], "wd", ["E=1"], [], false, ":9000", "GET", "/hp", [], 0⟩
      proxyOverrides.empty).1.2 rfl,
   (claim_C7_overrides_merge ⟨["srv"], "wd", ["E=1"], [], false, ":9000", "GET", "/hp", [], 0⟩
      ⟨some ["run", "-x"], none, none, none, none, none⟩).2.2.2.2.2.1.1 "run" ["-x"] rfl,
   (claim_C7_overrides_merge ⟨["srv"], "wd", ["E=1"], [], false, ":9000", "GET", "/hp", [], 0⟩
      proxyOverrides.empty).2.2.2.2.2.2⟩



/-- Counterexample for C2: at an idle slot with a recorded child (pid 7) and
a stored cancel function, the firing timer does not kill the child's process
group (no group-kill effect); it invokes the stored context cancel and
clears the `process` field itself, so the exit watcher that runs afterwards
finds no child left to clear (it only consumes the recorded reason). -/
theorem claim_C2_counterexample :
    idleTimerFire ⟨some 7, some 7, 0, some 1, "", none⟩ =
      (⟨none, some 7, 0, some 1, "idle timeout", none⟩, [Effect.cancelCtx 7]) ∧
    Effect.killGroup 7 ∉ (idleTimerFire ⟨some 7, some 7, 0, some 1, "", none⟩).2 ∧
    (idleTimerFire ⟨some 7, some 7, 0, some 1, "", none⟩).1.process = none ∧
    exitWatcherStep 7 (idleTimerFire ⟨some 7, some 7, 0, some 1, "", none⟩).1 =
      (⟨none, some 7, 0, some 1, "", none⟩, "idle timeout") := by
  refine ⟨rfl, ?_, rfl, rfl⟩
  decide

/-- C2 (amended): the idle timer is armed exactly when the active-request
count reaches zero on decrement and canceled on every increment; when it
fires while the count is still zero and a child is still recorded it sets
the termination reason to "idle timeout", terminates the child by invoking
the slot's stored cancel function (context cancellation), and clears the
child field itself, leaving nothing for the exit watcher to clear; when it
fires with the count positive or no child recorded it changes nothing. -/
theorem claim_C2_idle_timer (ps : processState) (t p q : Nat) :
    ((incrementRequests ps).1.idleTimer = none ∧
     (incrementRequests ps).1.activeRequests = ps.activeRequests + 1 ∧
     (∀ t0, ps.idleTimer = some t0 → (incrementRequests ps).2 = [Effect.stopTimer t0])) ∧
    ((ps.activeRequests - 1 = 0 →
       decrementRequests ps t =
         ({ ps with activeRequests := ps.activeRequests - 1, idleTimer := some t },
          [Effect.armTimer t])) ∧
     (ps.activeRequests - 1 ≠ 0 →
       decrementRequests ps t =
         ({ ps with activeRequests := ps.activeRequests - 1 }, []))) ∧
    ((ps.activeRequests = 0 → ps.process = some p →
       (idleTimerFire ps).1.terminationMsg = "idle timeout" ∧
       (idleTimerFire ps).1.process = none ∧
       (ps.cancel = some q → (idleTimerFire ps).2 = [Effect.cancelCtx q]) ∧
       (∀ e ∈ (idleTimerFire ps).2, e ≠ Effect.killGroup p) ∧
       (exitWatcherStep p (idleTimerFire ps).1).1.process = none ∧
       (exitWatcherStep p (idleTimerFire ps).1).2 = "idle timeout") ∧
     (ps.activeRequests ≠ 0 ∨ ps.process = none → idleTimerFire ps = (ps, []))) := by
  refine ⟨⟨?_, ?_, ?_⟩, ⟨?_, ?_⟩, ⟨?_, ?_⟩⟩
  · unfold incrementRequests
    cases h : ps.idleTimer <;> simp
  · unfold incrementRequests
    cases h : ps.idleTimer <;> simp
  · intro t0 h
    unfold incrementRequests
    simp [h]
  · intro h
    unfold decrementRequests
    simp [h]
  · intro h
    unfold decrementRequests
    simp [h]
  · intro h0 hp
    have hfire : (idleTimerFire ps).1 =
        { ps with terminationMsg := "idle timeout", process := none } := by
      unfold idleTimerFire
      simp [h0, hp]
    refine ⟨by rw [hfire], by rw [hfire], ?_, ?_, ?_, ?_⟩
    · intro hq
      unfold idleTimerFire
      simp [h0, hp, hq]
    · intro e he
      unfold idleTimerFire at he
      simp only [h0, hp] at he
      cases hq : ps.cancel <;> simp [hq] at he
      simp [he]
    · rw [hfire]
      unfold exitWatcherStep
      simp
    · rw [hfire]
      unfold exitWatcherStep
      simp
  · intro h
    unfold idleTimerFire
    rcases h with h | h <;> simp [h]

/-- Witness for C2 (amended) at a concrete idle slot with child pid 7 and a
stored cancel: decrement arms a timer, increment cancels it, and the firing
timer cancels the child's context and clears the child itself. -/
theorem claim_C2_idle_timer_witness :
    decrementRequests ⟨some 7, some 7, 1, none, "", none⟩ 3 =
      (⟨some 7, some 7, 0, some 3, "", none⟩, [Effect.armTimer 3]) ∧
    (incrementRequests ⟨some 7, some 7, 0, some 3, "", none⟩).1.idleTimer = none ∧
    (idleTimerFire ⟨some 7, some 7, 0, some 3, "", none⟩).2 = [Effect.cancelCtx 7] ∧
    (idleTimerFire ⟨some 7, some 7, 0, some 3, "", none⟩).1.process = none :=
  ⟨((claim_C2_idle_timer ⟨some 7, some 7, 1, none, "", none⟩ 3 7 7).2.1.1 (by decide)).trans
      (by decide),
   (claim_C2_idle_timer ⟨some 7, some 7, 0, some 3, "", none⟩ 3 7 7).1.1,
   ((claim_C2_idle_timer ⟨some 7, some 7, 0, some 3, "", none⟩ 3 7 7).2.2.1 rfl rfl).2.2.1 rfl,
   ((claim_C2_idle_timer ⟨some 7, some 7, 0, some 3, "", none⟩ 3 7 7).2.2.1 rfl rfl).2.1⟩



theorem spawnFree_append (a b : List Effect) :
    spawnFree (a ++ b) = (spawnFree a && spawnFree b) := by
  simp [spawnFree]

theorem method_ne_of_rc (method path : String)
    (h : readinessConfigured method path = true) : method ≠ "" := by
  intro he
  subst he
  simp [readinessConfigured] at h
  exact h.1 rfl

theorem selectPhase_ps (ps1 : processState) (m : proxyOverrides) (env : LaunchEnv)
    (effs : List Effect) : (selectPhase ps1 m env effs).ps = ps1 := by
  unfold selectPhase
  rcases henv : env.readiness with _ | msg | _ <;> try simp
  cases hc : ps1.cancel <;> simp

theorem selectPhase_spawnFree (ps1 : processState) (m : proxyOverrides) (env : LaunchEnv)
    (effs : List Effect) :
    spawnFree (selectPhase ps1 m env effs).effects = spawnFree effs := by
  unfold selectPhase
  rcases henv : env.readiness with _ | msg | _ <;> try simp
  cases hc : ps1.cancel <;> simp [spawnFree_append, spawnFree, Effect.isSpawn]

theorem selectPhase_mem (ps1 : processState) (m : proxyOverrides) (env : LaunchEnv)
    (effs : List Effect) (e : Effect) (he : e ∈ effs) :
    e ∈ (selectPhase ps1 m env effs).effects := by
  unfold selectPhase
  rcases henv : env.readiness with _ | msg | _ <;> try simpa
  cases hc : ps1.cancel <;> simp [he]

theorem selectPhase_ok (ps1 : processState) (m : proxyOverrides) (env : LaunchEnv)
    (effs : List Effect) (m' : proxyOverrides)
    (h : (selectPhase ps1 m env effs).result = .ok m') :
    m' = m ∧ env.readiness = .ready := by
  unfold selectPhase at h
  rcases henv : env.readiness with _ | msg | _ <;> rw [henv] at h <;> try simp_all
  cases hc : ps1.cancel <;> rw [hc] at h <;> simp_all

theorem selectPhase_error (ps1 : processState) (m : proxyOverrides) (env : LaunchEnv)
    (effs : List Effect) (e : Err)
    (h : (selectPhase ps1 m env effs).result = .error e) :
    (e = .readinessTimeout ∧ env.readiness = .timeout ∧
      (∀ q, ps1.cancel = some q →
        Effect.cancelCtx q ∈ (selectPhase ps1 m env effs).effects)) ∨
    (∃ msg, e = .exitedDuringReadiness msg ∧ env.readiness = .exited msg) := by
  unfold selectPhase at h ⊢
  rcases henv : env.readiness with _ | msg | _ <;> rw [henv] at h <;> try simp_all
  cases hc : ps1.cancel <;> rw [hc] at h <;> simp_all



theorem readinessPhase_ps (ps1 : processState) (m : proxyOverrides) (env : LaunchEnv)
    (effs : List Effect) : (readinessPhase ps1 m env effs).ps = ps1 := by
  simp only [readinessPhase]
  split
  · exact selectPhase_ps _ _ _ _
  · split
    · exact selectPhase_ps _ _ _ _
    · rfl

theorem readinessPhase_spawnFree (ps1 : processState) (m : proxyOverrides) (env : LaunchEnv)
    (effs : List Effect) :
    spawnFree (readinessPhase ps1 m env effs).effects = spawnFree effs := by
  simp only [readinessPhase]
  split
  · rw [selectPhase_spawnFree, spawnFree_append]
    simp [spawnFree, Effect.isSpawn]
  · split
    · rw [selectPhase_spawnFree, spawnFree_append]
      simp [spawnFree, Effect.isSpawn]
    · rfl

theorem readinessPhase_ok (ps1 : processState) (m : proxyOverrides) (env : LaunchEnv)
    (effs : List Effect) (m' : proxyOverrides)
    (h : (readinessPhase ps1 m env effs).result = .ok m') :
    m' = m ∧ env.readiness = .ready := by
  simp only [readinessPhase] at h
  split at h
  · exact selectPhase_ok _ _ _ _ _ h
  · split at h
    · exact selectPhase_ok _ _ _ _ _ h
    · simp at h

theorem readinessPhase_error (ps1 : processState) (m : proxyOverrides) (env : LaunchEnv)
    (effs : List Effect) (e : Err)
    (hm : m.readiness_method.getD "" ≠ "" ∨
      isUnixUpstream (m.reverse_proxy_to.getD "") = true)
    (h : (readinessPhase ps1 m env effs).result = .error e) :
    (e = .readinessTimeout ∧ env.readiness = .timeout ∧
      (∀ q, ps1.cancel = some q →
        Effect.cancelCtx q ∈ (readinessPhase ps1 m env effs).effects)) ∨
    (∃ msg, e = .exitedDuringReadiness msg ∧ env.readiness = .exited msg) := by
  simp only [readinessPhase] at h ⊢
  split at h
  · rename_i h1
    rw [if_pos h1]
    exact selectPhase_error _ _ _ _ _ h
  · rename_i h1
    split at h
    · rename_i h2
      rw [if_neg h1, if_pos h2]
      exact selectPhase_error _ _ _ _ _ h
    · rename_i h2
      rcases hm with hm | hm
      · exact absurd hm h1
      · exact absurd hm h2

theorem readinessPhase_mem (ps1 : processState) (m : proxyOverrides) (env : LaunchEnv)
    (effs : List Effect) (e : Effect) (he : e ∈ effs) :
    e ∈ (readinessPhase ps1 m env effs).effects := by
  simp only [readinessPhase]
  split
  · exact selectPhase_mem _ _ _ _ _ (by simp [he])
  · split
    · exact selectPhase_mem _ _ _ _ _ (by simp [he])
    · exact he

theorem readinessPhase_probeSocket (ps1 : processState) (m : proxyOverrides)
    (env : LaunchEnv) (effs : List Effect)
    (hmeth : m.readiness_method.getD "" = "")
    (hu : isUnixUpstream (m.reverse_proxy_to.getD "") = true) :
    Effect.probeSocket (goTrimPre "unix/" (m.reverse_proxy_to.getD "")) ∈
      (readinessPhase ps1 m env effs).effects := by
  have h1 : ¬ (m.readiness_method.getD "" ≠ "") := by simp [hmeth]
  simp only [readinessPhase]
  rw [if_neg h1, if_pos hu]
  exact selectPhase_mem _ _ _ _ _ (by simp)



theorem spawnFree_append_nospawn (pre : List Effect) (e : Effect)
    (hpre : spawnFree pre = true) (he : e.isSpawn = false) :
    spawnFree (pre ++ [e]) = true := by
  rw [spawnFree_append, hpre]
  simp [spawnFree, he]

theorem startSpawnPhase_ok (c : ReverseBin) (ps : processState) (m : proxyOverrides)
    (env : LaunchEnv) (pre : List Effect) (m' : proxyOverrides)
    (h : (startSpawnPhase c ps m env pre).result = .ok m') :
    (startSpawnPhase c ps m env pre).ps =
      { ps with process := some env.pid, cancel := some env.pid } ∧
    m' = m ∧ env.readiness = .ready := by
  obtain ⟨det, sockr, sp1, sp2, ste, pid, rd, oe⟩ := env
  rcases sp1 with _ | e1
  · rcases sp2 with _ | e2
    · rcases ste with _ | e3
      · simp only [startSpawnPhase] at h ⊢
        exact ⟨readinessPhase_ps _ _ _ _, readinessPhase_ok _ _ _ _ _ h⟩
      · simp [startSpawnPhase] at h
    · simp [startSpawnPhase] at h
  · simp [startSpawnPhase] at h

theorem startSpawnPhase_error_nospawn (c : ReverseBin) (ps : processState)
    (m : proxyOverrides) (env : LaunchEnv) (pre : List Effect) (e : Err)
    (h : (startSpawnPhase c ps m env pre).result = .error e)
    (hsf : spawnFree (startSpawnPhase c ps m env pre).effects = true) :
    (startSpawnPhase c ps m env pre).ps = ps := by
  obtain ⟨det, sockr, sp1, sp2, ste, pid, rd, oe⟩ := env
  rcases sp1 with _ | e1
  · rcases sp2 with _ | e2
    · rcases ste with _ | e3
      · simp only [startSpawnPhase] at hsf
        rw [readinessPhase_spawnFree, spawnFree_append] at hsf
        simp [spawnFree, Effect.isSpawn] at hsf
      · rfl
    · rfl
  · rfl

theorem startSpawnPhase_error_spawn (c : ReverseBin) (ps : processState)
    (m : proxyOverrides) (env : LaunchEnv) (pre : List Effect) (e : Err)
    (hm : m.readiness_method.getD "" ≠ "" ∨
      isUnixUpstream (m.reverse_proxy_to.getD "") = true)
    (hpre : spawnFree pre = true)
    (h : (startSpawnPhase c ps m env pre).result = .error e)
    (hsf : spawnFree (startSpawnPhase c ps m env pre).effects = false) :
    (startSpawnPhase c ps m env pre).ps =
      { ps with process := some env.pid, cancel := some env.pid } ∧
    ((e = .readinessTimeout ∧ env.readiness = .timeout ∧
        Effect.cancelCtx env.pid ∈ (startSpawnPhase c ps m env pre).effects) ∨
     (∃ msg, e = .exitedDuringReadiness msg ∧ env.readiness = .exited msg)) := by
  obtain ⟨det, sockr, sp1, sp2, ste, pid, rd, oe⟩ := env
  rcases sp1 with _ | e1
  · rcases sp2 with _ | e2
    · rcases ste with _ | e3
      · simp only [startSpawnPhase] at h hsf ⊢
        refine ⟨readinessPhase_ps _ _ _ _, ?_⟩
        rcases readinessPhase_error _ _ _ _ _ hm h with ⟨he, hr, hmem⟩ | h2
        · exact Or.inl ⟨he, hr, hmem pid rfl⟩
        · exact Or.inr h2
      · simp only [startSpawnPhase] at hsf
        simp [spawnFree_append_nospawn pre Effect.releaseCtx hpre rfl] at hsf
    · simp only [startSpawnPhase] at hsf
      simp [spawnFree_append_nospawn pre Effect.releaseCtx hpre rfl] at hsf
  · simp only [startSpawnPhase] at hsf
    simp [spawnFree_append_nospawn pre Effect.releaseCtx hpre rfl] at hsf

theorem startSpawnPhase_not_invalid (c : ReverseBin) (ps : processState)
    (m : proxyOverrides) (env : LaunchEnv) (pre : List Effect)
    (hm : m.readiness_method.getD "" ≠ "" ∨
      isUnixUpstream (m.reverse_proxy_to.getD "") = true) :
    (startSpawnPhase c ps m env pre).result ≠ .error .invalidConfigReadiness := by
  intro h
  obtain ⟨det, sockr, sp1, sp2, ste, pid, rd, oe⟩ := env
  rcases sp1 with _ | e1
  · rcases sp2 with _ | e2
    · rcases ste with _ | e3
      · simp only [startSpawnPhase] at h
        rcases readinessPhase_error _ _ _ _ _ hm h with ⟨he, _, _⟩ | ⟨msg, he, _⟩ <;>
          simp at he
      · simp [startSpawnPhase] at h
    · simp [startSpawnPhase] at h
  · simp [startSpawnPhase] at h

theorem startSpawnPhase_probeSocket (c : ReverseBin) (ps : processState)
    (m : proxyOverrides) (env : LaunchEnv) (pre : List Effect)
    (hmeth : m.readiness_method.getD "" = "")
    (hu : isUnixUpstream (m.reverse_proxy_to.getD "") = true)
    (hpre : spawnFree pre = true)
    (hsf : spawnFree (startSpawnPhase c ps m env pre).effects = false) :
    Effect.probeSocket (goTrimPre "unix/" (m.reverse_proxy_to.getD "")) ∈
      (startSpawnPhase c ps m env pre).effects := by
  obtain ⟨det, sockr, sp1, sp2, ste, pid, rd, oe⟩ := env
  rcases sp1 with _ | e1
  · rcases sp2 with _ | e2
    · rcases ste with _ | e3
      · simp only [startSpawnPhase] at hsf ⊢
        exact readinessPhase_probeSocket _ _ _ _ hmeth hu
      · simp only [startSpawnPhase] at hsf
        simp [spawnFree_append_nospawn pre Effect.releaseCtx hpre rfl] at hsf
    · simp only [startSpawnPhase] at hsf
      simp [spawnFree_append_nospawn pre Effect.releaseCtx hpre rfl] at hsf
  · simp only [startSpawnPhase] at hsf
    simp [spawnFree_append_nospawn pre Effect.releaseCtx hpre rfl] at hsf



theorem startProcessWith_ok (c : ReverseBin) (ps : processState) (ovr : proxyOverrides)
    (env : LaunchEnv) (m' : proxyOverrides)
    (h : (startProcessWith c ps ovr env).result = .ok m') :
    (startProcessWith c ps ovr env).ps =
      { ps with process := some env.pid, cancel := some env.pid } ∧
    m' = mergeDefaults c ovr ∧ env.readiness = .ready := by
  obtain ⟨det, sockr, sp1, sp2, ste, pid, rd, oe⟩ := env
  simp only [startProcessWith] at h ⊢
  split at h
  · simp at h
  · rename_i hval
    rw [if_neg hval] at *
    split at h
    · rename_i hu
      rw [if_pos hu] at *
      rcases sockr with _ | _ | msg
      · exact startSpawnPhase_ok _ _ _ _ _ _ h
      · exact startSpawnPhase_ok _ _ _ _ _ _ h
      · simp at h
    · rename_i hu
      rw [if_neg hu] at *
      exact startSpawnPhase_ok _ _ _ _ _ _ h

theorem startProcessWith_error_nospawn (c : ReverseBin) (ps : processState)
    (ovr : proxyOverrides) (env : LaunchEnv) (e : Err)
    (h : (startProcessWith c ps ovr env).result = .error e)
    (hsf : spawnFree (startProcessWith c ps ovr env).effects = true) :
    (startProcessWith c ps ovr env).ps = ps := by
  obtain ⟨det, sockr, sp1, sp2, ste, pid, rd, oe⟩ := env
  simp only [startProcessWith] at h hsf ⊢
  split at h
  · rename_i hval
    rw [if_pos hval]
  · rename_i hval
    rw [if_neg hval] at *
    split at h
    · rename_i hu
      rw [if_pos hu] at *
      rcases sockr with _ | _ | msg
      · exact startSpawnPhase_error_nospawn _ _ _ _ _ _ h hsf
      · exact startSpawnPhase_error_nospawn _ _ _ _ _ _ h hsf
      · rfl
    · rename_i hu
      rw [if_neg hu] at *
      exact startSpawnPhase_error_nospawn _ _ _ _ _ _ h hsf

theorem startProcessWith_hm (c : ReverseBin) (ovr : proxyOverrides)
    (hval : ¬(isUnixUpstream ((mergeDefaults c ovr).reverse_proxy_to.getD "") = false ∧
      readinessConfigured ((mergeDefaults c ovr).readiness_method.getD "")
        ((mergeDefaults c ovr).readiness_path.getD "") = false))
    (hu : ¬(isUnixUpstream ((mergeDefaults c ovr).reverse_proxy_to.getD "") = true)) :
    (mergeDefaults c ovr).readiness_method.getD "" ≠ "" ∨
      isUnixUpstream ((mergeDefaults c ovr).reverse_proxy_to.getD "") = true := by
  left
  have hfalse : isUnixUpstream ((mergeDefaults c ovr).reverse_proxy_to.getD "") = false := by
    cases h' : isUnixUpstream ((mergeDefaults c ovr).reverse_proxy_to.getD "") <;> simp_all
  have hrc : readinessConfigured ((mergeDefaults c ovr).readiness_method.getD "")
      ((mergeDefaults c ovr).readiness_path.getD "") = true := by
    cases h' : readinessConfigured ((mergeDefaults c ovr).readiness_method.getD "")
      ((mergeDefaults c ovr).readiness_path.getD "") <;> simp_all
  exact method_ne_of_rc _ _ hrc

theorem startProcessWith_error_spawn (c : ReverseBin) (ps : processState)
    (ovr : proxyOverrides) (env : LaunchEnv) (e : Err)
    (h : (startProcessWith c ps ovr env).result = .error e)
    (hsf : spawnFree (startProcessWith c ps ovr env).effects = false) :
    (startProcessWith c ps ovr env).ps =
      { ps with process := some env.pid, cancel := some env.pid } ∧
    ((e = .readinessTimeout ∧ env.readiness = .timeout ∧
        Effect.cancelCtx env.pid ∈ (startProcessWith c ps ovr env).effects) ∨
     (∃ msg, e = .exitedDuringReadiness msg ∧ env.readiness = .exited msg)) := by
  obtain ⟨det, sockr, sp1, sp2, ste, pid, rd, oe⟩ := env
  simp only [startProcessWith] at h hsf ⊢
  split at h
  · rename_i hval
    rw [if_pos hval] at hsf
    simp [spawnFree] at hsf
  · rename_i hval
    rw [if_neg hval] at *
    split at h
    · rename_i hu
      rw [if_pos hu] at *
      rcases sockr with _ | _ | msg
      · exact startSpawnPhase_error_spawn _ _ _ _ _ _ (Or.inr hu) rfl h hsf
      · exact startSpawnPhase_error_spawn _ _ _ _ _ _ (Or.inr hu) rfl h hsf
      · simp [spawnFree, Effect.isSpawn] at hsf
    · rename_i hu
      rw [if_neg hu] at *
      exact startSpawnPhase_error_spawn _ _ _ _ _ _
        (startProcessWith_hm c ovr hval hu) rfl h hsf

theorem startProcessWith_invalid (c : ReverseBin) (ps : processState)
    (ovr : proxyOverrides) (env : LaunchEnv)
    (h : (startProcessWith c ps ovr env).result = .error .invalidConfigReadiness) :
    (startProcessWith c ps ovr env).ps = ps ∧
    (startProcessWith c ps ovr env).effects = [] := by
  obtain ⟨det, sockr, sp1, sp2, ste, pid, rd, oe⟩ := env
  simp only [startProcessWith] at h ⊢
  split at h
  · rename_i hval
    rw [if_pos hval]
    exact ⟨rfl, rfl⟩
  · rename_i hval
    rw [if_neg hval] at *
    split at h
    · rename_i hu
      rw [if_pos hu] at *
      rcases sockr with _ | _ | msg
      · exact absurd h (startSpawnPhase_not_invalid _ _ _ _ _ (Or.inr hu))
      · exact absurd h (startSpawnPhase_not_invalid _ _ _ _ _ (Or.inr hu))
      · simp at h
    · rename_i hu
      rw [if_neg hu] at *
      exact absurd h
        (startSpawnPhase_not_invalid _ _ _ _ _ (startProcessWith_hm c ovr hval hu))

theorem startProcessWith_tcp_noready (c : ReverseBin) (ps : processState)
    (ovr : proxyOverrides) (env : LaunchEnv)
    (hu : isUnixUpstream ((mergeDefaults c ovr).reverse_proxy_to.getD "") = false)
    (hrc : readinessConfigured ((mergeDefaults c ovr).readiness_method.getD "")
      ((mergeDefaults c ovr).readiness_path.getD "") = false) :
    startProcessWith c ps ovr env = ⟨ps, [], .error .invalidConfigReadiness⟩ := by
  simp only [startProcessWith]
  rw [if_pos ⟨hu, hrc⟩]

theorem startProcessWith_unix_no_method (c : ReverseBin) (ps : processState)
    (ovr : proxyOverrides) (env : LaunchEnv)
    (hu : isUnixUpstream ((mergeDefaults c ovr).reverse_proxy_to.getD "") = true)
    (hmeth : (mergeDefaults c ovr).readiness_method.getD "" = "") :
    (startProcessWith c ps ovr env).result ≠ .error .invalidConfigReadiness ∧
    (spawnFree (startProcessWith c ps ovr env).effects = false →
      Effect.probeSocket
          (goTrimPre "unix/" ((mergeDefaults c ovr).reverse_proxy_to.getD "")) ∈
        (startProcessWith c ps ovr env).effects) := by
  obtain ⟨det, sockr, sp1, sp2, ste, pid, rd, oe⟩ := env
  have hval : ¬(isUnixUpstream ((mergeDefaults c ovr).reverse_proxy_to.getD "") = false ∧
      readinessConfigured ((mergeDefaults c ovr).readiness_method.getD "")
        ((mergeDefaults c ovr).readiness_path.getD "") = false) := by
    intro hx
    rw [hu] at hx
    simp at hx
  constructor
  · intro h
    simp only [startProcessWith] at h
    rw [if_neg hval, if_pos hu] at h
    rcases sockr with _ | _ | msg
    · exact absurd h (startSpawnPhase_not_invalid _ _ _ _ _ (Or.inr hu))
    · exact absurd h (startSpawnPhase_not_invalid _ _ _ _ _ (Or.inr hu))
    · simp at h
  · intro hsf
    simp only [startProcessWith] at hsf ⊢
    rw [if_neg hval, if_pos hu] at *
    rcases sockr with _ | _ | msg
    · exact startSpawnPhase_probeSocket _ _ _ _ _ hmeth hu rfl hsf
    · exact startSpawnPhase_probeSocket _ _ _ _ _ hmeth hu rfl hsf
    · simp [spawnFree, Effect.isSpawn] at hsf



theorem runDetector_fst (argv : List String) (d : DetectorRun) :
    (runDetector argv d).1 =
      [Effect.execDetector argv] ++
        (if d.stderr ≠ "" then [Effect.logDetectorStderr d.stderr] else []) := by
  obtain ⟨t, r, so, sj, se⟩ := d
  rcases sj with _ | j
  · cases t <;> rcases r with _ | e <;> simp [runDetector]
  · cases t <;> rcases r with _ | e <;>
      cases hu : unmarshalOverrides j proxyOverrides.empty <;> simp [runDetector, hu]

theorem runDetector_fst_spawnFree (argv : List String) (d : DetectorRun) :
    spawnFree (runDetector argv d).1 = true := by
  rw [runDetector_fst]
  by_cases h : d.stderr ≠ "" <;> simp [h, spawnFree, Effect.isSpawn]

theorem startProcess_dynamic_error (c : ReverseBin) (ps : processState) (key : String)
    (env : LaunchEnv) (e : Err)
    (hpos : c.DynamicProxyDetector.length > 0)
    (he : (runDetector (splitSp [] key.data) env.detector).2 = .error e) :
    startProcess c ps key env =
      ⟨ps, (runDetector (splitSp [] key.data) env.detector).1, .error e⟩ := by
  simp [startProcess, hpos, he]

theorem startProcess_dynamic_ok (c : ReverseBin) (ps : processState) (key : String)
    (env : LaunchEnv) (ovr : proxyOverrides)
    (hpos : c.DynamicProxyDetector.length > 0)
    (ho : (runDetector (splitSp [] key.data) env.detector).2 = .ok ovr) :
    startProcess c ps key env =
      ⟨(startProcessWith c ps ovr env).ps,
       (runDetector (splitSp [] key.data) env.detector).1 ++
         (startProcessWith c ps ovr env).effects,
       (startProcessWith c ps ovr env).result⟩ := by
  simp [startProcess, hpos, ho]

/-- C3: a launch whose effective upstream is TCP and whose effective
readiness probe is not configured fails with the readiness-required error,
returning the slot untouched and with no effects (so before any spawn);
whenever that error is returned at all no child was spawned; for a `unix/`
effective upstream the readiness probe may be omitted: the error is never
raised and, once the child is spawned, socket-existence probing is used;
provisioning likewise only succeeds for a TCP non-empty upstream when the
readiness probe is configured. -/
theorem claim_C3_tcp_readiness_mandatory (c : ReverseBin) (ps : processState)
    (ovr : proxyOverrides) (env : LaunchEnv) :
    (isUnixUpstream ((mergeDefaults c ovr).reverse_proxy_to.getD "") = false →
      readinessConfigured ((mergeDefaults c ovr).readiness_method.getD "")
        ((mergeDefaults c ovr).readiness_path.getD "") = false →
      startProcessWith c ps ovr env = ⟨ps, [], .error .invalidConfigReadiness⟩) ∧
    ((startProcessWith c ps ovr env).result = .error .invalidConfigReadiness →
      (startProcessWith c ps ovr env).ps = ps ∧
      (startProcessWith c ps ovr env).effects = []) ∧
    (isUnixUpstream ((mergeDefaults c ovr).reverse_proxy_to.getD "") = true →
      (mergeDefaults c ovr).readiness_method.getD "" = "" →
      (startProcessWith c ps ovr env).result ≠ .error .invalidConfigReadiness ∧
      (spawnFree (startProcessWith c ps ovr env).effects = false →
        Effect.probeSocket
            (goTrimPre "unix/" ((mergeDefaults c ovr).reverse_proxy_to.getD "")) ∈
          (startProcessWith c ps ovr env).effects)) ∧
    (∀ c' c2, provisionValidate c' = .ok c2 →
      isUnixUpstream c2.ReverseProxyTo = false → c2.ReverseProxyTo ≠ "" →
      readinessConfigured c2.ReadinessMethod c2.ReadinessPath = true) := by
  refine ⟨startProcessWith_tcp_noready c ps ovr env,
    startProcessWith_invalid c ps ovr env,
    startProcessWith_unix_no_method c ps ovr env, ?_⟩
  intro c' c2 h hu hne
  simp only [provisionValidate] at h
  split at h
  · simp at h
  · split at h
    · simp at h
    · split at h <;> split at h <;>
        first
          | (simp only [Except.ok.injEq] at h; subst h; simp_all)
          | simp at h

/-- Witness for C3: a static TCP configuration without readiness is rejected
with the slot untouched; a static `unix/` configuration without readiness
launches and uses socket-existence probing. -/
theorem claim_C3_tcp_readiness_mandatory_witness :
    startProcessWith ⟨["srv"], "", [], [], false, "127.0.0.1:9000", "", "", [], 0⟩
        processState.empty proxyOverrides.empty
        ⟨⟨false, none, "", none, ""⟩, .removed, none, none, none, 42, .ready, []⟩ =
      ⟨processState.empty, [], .error .invalidConfigReadiness⟩ ∧
    Effect.probeSocket "/tmp/s.sock" ∈
      (startProcessWith ⟨["srv"], "", [], [], false, "unix//tmp/s.sock", "", "", [], 0⟩
          processState.empty proxyOverrides.empty
          ⟨⟨false, none, "", none, ""⟩, .removed, none, none, none, 42, .ready, []⟩).effects ∧
    readinessConfigured "GET" "/hp" = true := by
  refine ⟨(claim_C3_tcp_readiness_mandatory _ processState.empty proxyOverrides.empty _).1
      (by decide) (by decide), ?_, ?_⟩
  · have := ((claim_C3_tcp_readiness_mandatory
        ⟨["srv"], "", [], [], false, "unix//tmp/s.sock", "", "", [], 0⟩
        processState.empty proxyOverrides.empty
        ⟨⟨false, none, "", none, ""⟩, .removed, none, none, none, 42, .ready, []⟩).2.2.1
        (by decide) (by decide)).2 (by decide)
    simpa using this
  · exact (claim_C3_tcp_readiness_mandatory
        ⟨["srv"], "", [], [], false, "127.0.0.1:9000", "", "", [], 0⟩
        processState.empty proxyOverrides.empty
        ⟨⟨false, none, "", none, ""⟩, .removed, none, none, none, 42, .ready, []⟩).2.2.2
      ⟨["srv"], "", [], [], false, "127.0.0.1:9000", "get", "/hp", [], 0⟩
      ⟨["srv"], "", [], [], false, "127.0.0.1:9000", "GET", "/hp", [], 5000⟩
      (by rfl) (by decide) (by decide)



theorem exitWatcherStep_clears (pid : Nat) (ps' : processState)
    (hp : ps'.process = some pid) :
    (exitWatcherStep pid ps').1.process = none ∧
    (exitWatcherStep pid ps').1.cancel = ps'.cancel := by
  unfold exitWatcherStep
  simp [hp]

theorem startProcessWith_contract (c : ReverseBin) (ps : processState)
    (ovr : proxyOverrides) (env : LaunchEnv) :
    (∀ m', (startProcessWith c ps ovr env).result = .ok m' →
      (startProcessWith c ps ovr env).ps =
        { ps with process := some env.pid, cancel := some env.pid } ∧
      env.readiness = .ready) ∧
    (∀ e, (startProcessWith c ps ovr env).result = .error e →
      spawnFree (startProcessWith c ps ovr env).effects = true →
      (startProcessWith c ps ovr env).ps = ps) ∧
    (∀ e, (startProcessWith c ps ovr env).result = .error e →
      spawnFree (startProcessWith c ps ovr env).effects = false →
      (startProcessWith c ps ovr env).ps =
        { ps with process := some env.pid, cancel := some env.pid } ∧
      ((e = .readinessTimeout ∧ env.readiness = .timeout ∧
          Effect.cancelCtx env.pid ∈ (startProcessWith c ps ovr env).effects) ∨
       (∃ msg, e = .exitedDuringReadiness msg ∧ env.readiness = .exited msg)) ∧
      (exitWatcherStep env.pid (startProcessWith c ps ovr env).ps).1.process = none ∧
      (exitWatcherStep env.pid (startProcessWith c ps ovr env).ps).1.cancel = some env.pid) := by
  refine ⟨?_, ?_, ?_⟩
  · intro m' hm'
    obtain ⟨hps, _, hready⟩ := startProcessWith_ok c ps ovr env m' hm'
    exact ⟨hps, hready⟩
  · intro e he hsf
    exact startProcessWith_error_nospawn c ps ovr env e he hsf
  · intro e he hsf
    obtain ⟨hps, hdisj⟩ := startProcessWith_error_spawn c ps ovr env e he hsf
    have hproc : (startProcessWith c ps ovr env).ps.process = some env.pid := by rw [hps]
    have hcanc : (startProcessWith c ps ovr env).ps.cancel = some env.pid := by rw [hps]
    refine ⟨hps, hdisj, (exitWatcherStep_clears env.pid _ hproc).1, ?_⟩
    rw [(exitWatcherStep_clears env.pid _ hproc).2, hcanc]

/-- Counterexample for C1: a static TCP launch whose readiness polling times
out returns the readiness-timeout error, yet the slot is not left as it was:
its child and cancel fields still hold the spawned (and then canceled)
process 42 at return. -/
theorem claim_C1_counterexample :
    (startProcess ⟨["srv"], "", [], [], false, "127.0.0.1:9000", "GET", "/hp", [], 0⟩
        processState.empty ""
        ⟨⟨false, none, "", none, ""⟩, .removed, none, none, none, 42, .timeout, []⟩).result =
      .error .readinessTimeout ∧
    (startProcess ⟨["srv"], "", [], [], false, "127.0.0.1:9000", "GET", "/hp", [], 0⟩
        processState.empty ""
        ⟨⟨false, none, "", none, ""⟩, .removed, none, none, none, 42, .timeout, []⟩).ps ≠
      processState.empty ∧
    (startProcess ⟨["srv"], "", [], [], false, "127.0.0.1:9000", "GET", "/hp", [], 0⟩
        processState.empty ""
        ⟨⟨false, none, "", none, ""⟩, .removed, none, none, none, 42, .timeout, []⟩).ps.process =
      some 42 :=
  ⟨rfl, by decide, rfl⟩

/-- C1 (amended): on success the slot's child and cancel fields record the
newly started process with every other field unchanged, and the readiness
gate has passed; on any failure before a child was spawned the slot is
returned exactly as it was; on a failure after the spawn (readiness timeout,
where the launch context is canceled, or child exit during readiness) the
child and cancel fields still hold the spawned process at return — only the
exit watcher later clears the child field, while the cancel field keeps the
dead launch's cancel function. -/
theorem claim_C1_launch_contract (c : ReverseBin) (ps : processState) (key : String)
    (env : LaunchEnv) :
    (∀ m', (startProcess c ps key env).result = .ok m' →
      (startProcess c ps key env).ps =
        { ps with process := some env.pid, cancel := some env.pid } ∧
      env.readiness = .ready) ∧
    (∀ e, (startProcess c ps key env).result = .error e →
      spawnFree (startProcess c ps key env).effects = true →
      (startProcess c ps key env).ps = ps) ∧
    (∀ e, (startProcess c ps key env).result = .error e →
      spawnFree (startProcess c ps key env).effects = false →
      (startProcess c ps key env).ps =
        { ps with process := some env.pid, cancel := some env.pid } ∧
      ((e = .readinessTimeout ∧ env.readiness = .timeout ∧
          Effect.cancelCtx env.pid ∈ (startProcess c ps key env).effects) ∨
       (∃ msg, e = .exitedDuringReadiness msg ∧ env.readiness = .exited msg)) ∧
      (exitWatcherStep env.pid (startProcess c ps key env).ps).1.process = none ∧
      (exitWatcherStep env.pid (startProcess c ps key env).ps).1.cancel = some env.pid) := by
  by_cases hpos : c.DynamicProxyDetector.length > 0
  · cases hr : (runDetector (splitSp [] key.data) env.detector).2 with
    | error e0 =>
      have heq := startProcess_dynamic_error c ps key env e0 hpos hr
      rw [heq]
      refine ⟨?_, ?_, ?_⟩
      · intro m' hm'
        simp at hm'
      · intro e he hsf
        rfl
      · intro e he hsf
        have hsf2 : spawnFree (runDetector (splitSp [] key.data) env.detector).1 = false := hsf
        rw [runDetector_fst_spawnFree] at hsf2
        simp at hsf2
    | ok ovr =>
      have heq := startProcess_dynamic_ok c ps key env ovr hpos hr
      rw [heq]
      obtain ⟨Cok, Cns, Csp⟩ := startProcessWith_contract c ps ovr env
      refine ⟨?_, ?_, ?_⟩
      · intro m' hm'
        exact Cok m' hm'
      · intro e he hsf
        have hsf2 : spawnFree ((runDetector (splitSp [] key.data) env.detector).1 ++
            (startProcessWith c ps ovr env).effects) = true := hsf
        rw [spawnFree_append, runDetector_fst_spawnFree] at hsf2
        simp at hsf2
        exact Cns e he hsf2
      · intro e he hsf
        have hsf2 : spawnFree ((runDetector (splitSp [] key.data) env.detector).1 ++
            (startProcessWith c ps ovr env).effects) = false := hsf
        rw [spawnFree_append, runDetector_fst_spawnFree] at hsf2
        simp at hsf2
        obtain ⟨hps, hdisj, hw1, hw2⟩ := Csp e he hsf2
        refine ⟨hps, ?_, hw1, hw2⟩
        rcases hdisj with ⟨he1, hr1, hmem⟩ | h2
        · exact Or.inl ⟨he1, hr1, List.mem_append_right _ hmem⟩
        · exact Or.inr h2
  · have h0 : startProcess c ps key env = startProcessWith c ps proxyOverrides.empty env := by
      simp [startProcess, hpos]
    rw [h0]
    exact startProcessWith_contract c ps proxyOverrides.empty env

/-- Witness for C1 (amended): at a concrete static TCP configuration, a
ready launch records child 42 in the slot, and a timed-out launch cancels
the child's context yet still leaves child 42 recorded, which the exit
watcher then clears. -/
theorem claim_C1_launch_contract_witness :
    (startProcess ⟨["srv"], "", [], [], false, "127.0.0.1:9000", "GET", "/hp", [], 0⟩
        processState.empty ""
        ⟨⟨false, none, "", none, ""⟩, .removed, none, none, none, 42, .ready, []⟩).ps =
      { processState.empty with process := some 42, cancel := some 42 } ∧
    Effect.cancelCtx 42 ∈
      (startProcess ⟨["srv"], "", [], [], false, "127.0.0.1:9000", "GET", "/hp", [], 0⟩
          processState.empty ""
          ⟨⟨false, none, "", none, ""⟩, .removed, none, none, none, 42, .timeout, []⟩).effects ∧
    (exitWatcherStep 42
        (startProcess ⟨["srv"], "", [], [], false, "127.0.0.1:9000", "GET", "/hp", [], 0⟩
            processState.empty ""
            ⟨⟨false, none, "", none, ""⟩, .removed, none, none, none, 42, .timeout, []⟩).ps).1.process =
      none := by
  refine ⟨((claim_C1_launch_contract ⟨["srv"], "", [], [], false, "127.0.0.1:9000", "GET", "/hp", [], 0⟩
      processState.empty ""
      ⟨⟨false, none, "", none, ""⟩, .removed, none, none, none, 42, .ready, []⟩).1
      _ rfl).1, ?_, ?_⟩
  · obtain ⟨_, hdisj, _, _⟩ := (claim_C1_launch_contract
        ⟨["srv"], "", [], [], false, "127.0.0.1:9000", "GET", "/hp", [], 0⟩
        processState.empty ""
        ⟨⟨false, none, "", none, ""⟩, .removed, none, none, none, 42, .timeout, []⟩).2.2
        .readinessTimeout rfl (by decide)
    rcases hdisj with ⟨_, _, hmem⟩ | ⟨msg, he, _⟩
    · exact hmem
    · exact absurd he (by simp)
  · exact ((claim_C1_launch_contract
        ⟨["srv"], "", [], [], false, "127.0.0.1:9000", "GET", "/hp", [], 0⟩
        processState.empty ""
        ⟨⟨false, none, "", none, ""⟩, .removed, none, none, none, 42, .timeout, []⟩).2.2
        .readinessTimeout rfl (by decide)).2.2.1

end ReverseWeb
